import Mathlib

/-!
Verification of the call-session signaling subsystem of the supachat
repository.  The definitions below are a shallow embedding of the second
(WebRTC-wired) `Page` component found in the page source: the React state
hooks and mutable refs become fields of `SessionState`, the six
`channel.on("broadcast", ...)` handlers become pure transition functions,
and the asynchronous offer/answer flows become functions parameterized by
the outcome of media acquisition.  The browser `RTCPeerConnection` object
is an external API, modelled by the standard W3C signaling-state machine
(`setRemoteDescription` of an answer succeeds only in the have-local-offer
state, `addIceCandidate` fails while no remote description is set, a
rejected promise inside a `try` block aborts the rest of the handler).
`formatDuration` comes from `VoiceCallModal.tsx`.
-/

/-- SDP descriptions are offers or answers (`RTCSessionDescriptionInit.type`). -/
inductive SDPType where
  | offer
  | answer
deriving DecidableEq

/-- An opaque session description: its type plus a tag distinguishing
distinct descriptions. -/
structure SDPDesc where
  type : SDPType
  tag : Nat
deriving DecidableEq

/-- Opaque ICE candidate descriptor (`payload.candidate`). -/
abbrev Candidate := Nat

/-- Kind of a captured media track. -/
inductive TrackKind where
  | audio
  | video
deriving DecidableEq

/-- A media track: its kind and the `enabled` flag toggled by mute/camera
controls. -/
structure MediaTrack where
  kind : TrackKind
  enabled : Bool
deriving DecidableEq

/-- A `MediaStream`: an ordered list of tracks. -/
structure MediaStream where
  tracks : List MediaTrack
deriving DecidableEq

/-- W3C RTCPeerConnection signaling states reachable in this app (no
provisional-answer states are ever used by the code). -/
inductive SignalingState where
  | stable
  | haveLocalOffer
  | haveRemoteOffer
deriving DecidableEq

/-- Model of the browser `RTCPeerConnection` (external API): descriptions,
applied candidates, sender tracks added with `addTrack`, and the closed
flag. -/
structure PeerConnection where
  signaling : SignalingState
  localDesc : Option SDPDesc
  remoteDesc : Option SDPDesc
  appliedCandidates : List Candidate
  senderTracks : List MediaTrack
  closed : Bool
deriving DecidableEq

/-- A freshly constructed `new RTCPeerConnection(rtcConfig)`. -/
def PeerConnection.mkNew : PeerConnection :=
  { signaling := .stable, localDesc := none, remoteDesc := none,
    appliedCandidates := [], senderTracks := [], closed := false }

/-- `pc.setLocalDescription(sdp)` per the W3C state machine; `none` models
a rejected promise. -/
def PeerConnection.setLocalDescription (pc : PeerConnection) (sdp : SDPDesc) :
    Option PeerConnection :=
  if pc.closed then none
  else
    match sdp.type, pc.signaling with
    | .offer, .stable => some { pc with signaling := .haveLocalOffer, localDesc := some sdp }
    | .offer, .haveLocalOffer => some { pc with signaling := .haveLocalOffer, localDesc := some sdp }
    | .answer, .haveRemoteOffer => some { pc with signaling := .stable, localDesc := some sdp }
    | _, _ => none

/-- `pc.setRemoteDescription(sdp)` per the W3C state machine; `none` models
a rejected promise (for example a second remote answer while stable). -/
def PeerConnection.setRemoteDescription (pc : PeerConnection) (sdp : SDPDesc) :
    Option PeerConnection :=
  if pc.closed then none
  else
    match sdp.type, pc.signaling with
    | .offer, .stable => some { pc with signaling := .haveRemoteOffer, remoteDesc := some sdp }
    | .offer, .haveRemoteOffer => some { pc with signaling := .haveRemoteOffer, remoteDesc := some sdp }
    | .answer, .haveLocalOffer => some { pc with signaling := .stable, remoteDesc := some sdp }
    | _, _ => none

/-- `pc.addIceCandidate(c)`: rejects while the connection is closed or no
remote description has been applied, otherwise appends the candidate. -/
def PeerConnection.addIceCandidate (pc : PeerConnection) (c : Candidate) :
    Option PeerConnection :=
  if pc.closed then none
  else
    match pc.remoteDesc with
    | none => none
    | some _ => some { pc with appliedCandidates := pc.appliedCandidates ++ [c] }

/-- The `callState` React state: `"incoming" | "outgoing" | "active"`. -/
inductive UICallState where
  | incoming
  | outgoing
  | active
deriving DecidableEq

/-- The `connectionStatus` React state. -/
inductive ConnQuality where
  | connecting
  | good
  | fair
  | poor
  | disconnected
deriving DecidableEq

/-- The raw `RTCPeerConnection.connectionState` values. -/
inductive RTCConnectionState where
  | new
  | connecting
  | connected
  | disconnected
  | failed
  | closed
deriving DecidableEq

/-- The `callContact` React state (name / username / avatar of the peer). -/
structure ContactCard where
  name : Option String
  username : Option String
  avatarUrl : Option String
deriving DecidableEq

/-- The six broadcast event kinds used on the `"calls"` channel. -/
inductive EventKind where
  | call
  | answer
  | ice
  | decline
  | hangup
  | cancel
deriving DecidableEq

/-- A signaling payload.  `fromId` embeds the wire field `from` (a Lean
keyword).  Optional fields model JS properties that may be absent. -/
structure Payload where
  callId : Option String
  fromId : String
  toId : String
  ts : Nat
  sdp : Option SDPDesc
  candidate : Option Candidate
  fromName : Option String
  fromUsername : Option String
  fromAvatarUrl : Option String
deriving DecidableEq

/-- A message given to `channel.send({type:"broadcast", event, payload})`. -/
structure OutMessage where
  event : EventKind
  payload : Payload
deriving DecidableEq

/-- The local identity (`currentUser`). -/
structure UserIdentity where
  id : String
  username : String
  displayName : String
  avatarUrl : Option String
deriving DecidableEq

/-- The call-related React state and refs of the `Page` component.
`localVideoAttached` / `remoteVideoAttached` record whether the video
elements' `srcObject` is set; `sent` is the log of broadcast sends. -/
structure SessionState where
  callOpen : Bool
  callState : UICallState
  callContact : Option ContactCard
  callMuted : Bool
  callSpeaker : Bool
  callCameraOff : Bool
  callStartedAt : Option Nat
  connectionStatus : ConnQuality
  callPeerId : Option String
  activeCallId : Option String
  pc : Option PeerConnection
  localStream : Option MediaStream
  remoteStream : Option MediaStream
  pendingRemoteSDP : Option SDPDesc
  isCaller : Bool
  localVideoAttached : Bool
  remoteVideoAttached : Bool
  sent : List OutMessage
deriving DecidableEq

/-- The initial React state: modal closed, `callState` initialized to
`"outgoing"`, `connectionStatus` to `"connecting"`, all refs null. -/
def initialState : SessionState :=
  { callOpen := false, callState := .outgoing, callContact := none,
    callMuted := false, callSpeaker := false, callCameraOff := false,
    callStartedAt := none, connectionStatus := .connecting,
    callPeerId := none, activeCallId := none, pc := none,
    localStream := none, remoteStream := none, pendingRemoteSDP := none,
    isCaller := false, localVideoAttached := false,
    remoteVideoAttached := false, sent := [] }

/-- JS truthiness coercion `v || null` on an optional string: `undefined`,
`null` and the empty string all collapse to `null`. -/
def jsOrNull (v : Option String) : Option String :=
  match v with
  | some c => if c = "" then none else some c
  | none => none

/-- `cleanupCall`: stops every sender/receiver/stream track (the stopped
objects are unreachable afterwards because every ref is nulled), closes the
peer connection, nulls `pcRef`, `localStreamRef`, `remoteStreamRef`, and
clears both video elements' `srcObject`.  Every step is wrapped in
`try {} catch {}` in the source, so the function is total. -/
def cleanupCall (s : SessionState) : SessionState :=
  { s with
    pc := none, localStream := none, remoteStream := none,
    localVideoAttached := false, remoteVideoAttached := false }

/-- The `channel.on("broadcast", { event: "call" })` handler body. -/
def onCallEvent (myId : String) (p? : Option Payload) (s : SessionState) :
    SessionState :=
  match p? with
  | none => s
  | some p =>
    if p.toId ≠ myId then s
    else
      { s with
        activeCallId := jsOrNull p.callId,
        callPeerId := some p.fromId,
        callContact := some { name := p.fromName, username := p.fromUsername,
                              avatarUrl := p.fromAvatarUrl },
        callState := .incoming,
        connectionStatus := .connecting,
        callMuted := false,
        callSpeaker := false,
        callStartedAt := none,
        pendingRemoteSDP :=
          match p.sdp with
          | some sdp => if sdp.type = .offer then some sdp else s.pendingRemoteSDP
          | none => s.pendingRemoteSDP,
        callOpen := true }

/-- The `channel.on("broadcast", { event: "answer" })` handler body.  If
`setRemoteDescription` rejects, the surrounding `try` aborts before any of
the state setters run. -/
def onAnswerEvent (myId : String) (now : Nat) (p? : Option Payload)
    (s : SessionState) : SessionState :=
  match p? with
  | none => s
  | some p =>
    if p.toId ≠ myId then s
    else
      match p.sdp, s.pc with
      | some sdp, some pc =>
        if sdp.type = .answer then
          match pc.setRemoteDescription sdp with
          | none => s
          | some pc2 =>
            { s with
              pc := some pc2, callState := .active,
              connectionStatus := .good, callStartedAt := some now }
        else
          { s with
            callState := .active, connectionStatus := .good,
            callStartedAt := some now }
      | _, _ =>
        { s with
          callState := .active, connectionStatus := .good,
          callStartedAt := some now }

/-- The `channel.on("broadcast", { event: "ice" })` handler body: returns
early when `pcRef` is null or the payload has no candidate; a rejected
`addIceCandidate` is swallowed by the `try`. -/
def onIceEvent (myId : String) (p? : Option Payload) (s : SessionState) :
    SessionState :=
  match p? with
  | none => s
  | some p =>
    if p.toId ≠ myId then s
    else
      match s.pc, p.candidate with
      | some pc, some c =>
        match pc.addIceCandidate c with
        | none => s
        | some pc2 => { s with pc := some pc2 }
      | _, _ => s

/-- The shared body of the `decline`, `hangup` and `cancel` handlers:
`cleanupCall()`, close the modal, clear `callStartedAt`, `activeCallId`
and `callPeerId`. -/
def onTerminateEvent (myId : String) (p? : Option Payload) (s : SessionState) :
    SessionState :=
  match p? with
  | none => s
  | some p =>
    if p.toId ≠ myId then s
    else
      { cleanupCall s with
        callOpen := false, callStartedAt := none,
        activeCallId := none, callPeerId := none }

/-- Dispatch of one inbound broadcast event to its handler. -/
def handleBroadcast (myId : String) (now : Nat) (kind : EventKind)
    (p? : Option Payload) (s : SessionState) : SessionState :=
  match kind with
  | .call => onCallEvent myId p? s
  | .answer => onAnswerEvent myId now p? s
  | .ice => onIceEvent myId p? s
  | .decline => onTerminateEvent myId p? s
  | .hangup => onTerminateEvent myId p? s
  | .cancel => onTerminateEvent myId p? s

/-- The `pc.onconnectionstatechange` callback: maps the raw connectivity
signal onto `connectionStatus`; other raw states leave it unchanged. -/
def onConnectionStateChange (st : RTCConnectionState) (s : SessionState) :
    SessionState :=
  match st with
  | .connected => { s with connectionStatus := .good }
  | .connecting => { s with connectionStatus := .connecting }
  | .disconnected => { s with connectionStatus := .disconnected }
  | .failed => { s with connectionStatus := .disconnected }
  | _ => s

/-- Disable or enable every audio track of an optional stream
(`stream?.getAudioTracks().forEach((t) => (t.enabled = !m))`). -/
def setStreamAudioEnabled (enabled : Bool) (s? : Option MediaStream) :
    Option MediaStream :=
  s?.map fun st =>
    ⟨st.tracks.map fun t =>
      if t.kind = .audio then { t with enabled := enabled } else t⟩

/-- The `onMuteToggle` handler of the modal: records the flag and toggles
the enabled bit of the local audio tracks; nothing is broadcast. -/
def onMuteToggle (m : Bool) (s : SessionState) : SessionState :=
  { s with
    callMuted := m,
    localStream := setStreamAudioEnabled (!m) s.localStream }

/-- `ensureLocalMedia`: returns the held stream if present, otherwise the
result of `getUserMedia` (the `media` argument; `none` models a rejected
permission/device request) and attaches it to the local video element. -/
def ensureLocalMedia (media : Option MediaStream) (s : SessionState) :
    Option (MediaStream × SessionState) :=
  match s.localStream with
  | some st => some (st, s)
  | none =>
    match media with
    | none => none
    | some st =>
      some (st, { s with localStream := some st, localVideoAttached := true })

/-- `setupPeerConnection`: returns the existing connection if present,
otherwise constructs a fresh one and stores it in `pcRef`. -/
def setupPeerConnection (s : SessionState) : PeerConnection × SessionState :=
  match s.pc with
  | some pc => (pc, s)
  | none => (PeerConnection.mkNew, { s with pc := some PeerConnection.mkNew })

/-- The asynchronous offer flow of `handleStartCall` (the IIFE after the
synchronous state updates): acquire media, set up the transport, add the
local tracks, create and apply the offer, broadcast the `call` event; any
failure runs the catch block (`cleanupCall`, close modal, clear ids). -/
def startCallFlow (contactId : String) (me : UserIdentity)
    (newCallId : String) (media : Option MediaStream) (offerTag now : Nat)
    (s1 : SessionState) : SessionState :=
  match ensureLocalMedia media s1 with
  | none =>
    { cleanupCall s1 with
      callOpen := false, activeCallId := none, callPeerId := none }
  | some (stream, s2) =>
    let ps := setupPeerConnection s2
    let pc1 := { ps.1 with senderTracks := ps.1.senderTracks ++ stream.tracks }
    let offer : SDPDesc := { type := .offer, tag := offerTag }
    match pc1.setLocalDescription offer with
    | none =>
      { cleanupCall { ps.2 with pc := some pc1 } with
        callOpen := false, activeCallId := none, callPeerId := none }
    | some pc2 =>
      let s4 := { ps.2 with pc := some pc2 }
      { s4 with
        sent := s4.sent ++
          [{ event := .call,
             payload :=
               { callId := some newCallId, fromId := me.id, toId := contactId,
                 ts := now, sdp := some offer, candidate := none,
                 fromName := some me.displayName,
                 fromUsername := some me.username,
                 fromAvatarUrl := me.avatarUrl } }] }

/-- `handleStartCall`: the synchronous state updates (new call id, peer,
contact card, outgoing state, open modal, caller role) followed by the
offer flow.  The guard `if (!activeContact || !currentUser) return` is
modelled by requiring both arguments. -/
def handleStartCall (contact : ContactCard) (contactId : String)
    (me : UserIdentity) (newCallId : String) (media : Option MediaStream)
    (offerTag now : Nat) (s : SessionState) : SessionState :=
  let s1 :=
    { s with
      activeCallId := some newCallId,
      callPeerId := some contactId,
      callContact := some contact,
      callState := .outgoing,
      connectionStatus := .connecting,
      callMuted := false,
      callSpeaker := false,
      callCameraOff := false,
      callStartedAt := none,
      callOpen := true,
      isCaller := true }
  startCallFlow contactId me newCallId media offerTag now s1

/-- The `onAnswer` handler of the modal (callee accept path): create the
transport, acquire media, apply the buffered remote offer, create and apply
the local answer, flip to active and broadcast the `answer` event.  The
whole flow is wrapped in `try { ... } catch { /* noop */ }`, so a failure
at any step keeps every mutation made up to that point and does nothing
else. -/
def handleAnswerIntent (me : UserIdentity) (media : Option MediaStream)
    (answerTag now : Nat) (s : SessionState) : SessionState :=
  let s0 := { s with isCaller := false }
  let ps := setupPeerConnection s0
  match ensureLocalMedia media ps.2 with
  | none => ps.2
  | some (stream, s2) =>
    let s3 := { s2 with callCameraOff := false }
    let pc1 := { ps.1 with senderTracks := ps.1.senderTracks ++ stream.tracks }
    let applied : Option PeerConnection :=
      match s3.pendingRemoteSDP with
      | some sdp =>
        if sdp.type = .offer then pc1.setRemoteDescription sdp else some pc1
      | none => some pc1
    match applied with
    | none => { s3 with pc := some pc1 }
    | some pc2 =>
      if pc2.signaling = .haveRemoteOffer then
        let ans : SDPDesc := { type := .answer, tag := answerTag }
        match pc2.setLocalDescription ans with
        | none => { s3 with pc := some pc2 }
        | some pc3 =>
          let s4 :=
            { s3 with
              pc := some pc3, callState := .active,
              connectionStatus := .good, callStartedAt := some now }
          match jsOrNull s4.callPeerId, jsOrNull s4.activeCallId with
          | some peer, some cid =>
            { s4 with
              sent := s4.sent ++
                [{ event := .answer,
                   payload :=
                     { callId := some cid, fromId := me.id, toId := peer,
                       ts := now, sdp := some ans, candidate := none,
                       fromName := none, fromUsername := none,
                       fromAvatarUrl := none } }] }
          | _, _ => s4
      else { s3 with pc := some pc2 }

/-- One received broadcast message together with the local clock value at
the moment it is handled. -/
structure RxEvent where
  now : Nat
  kind : EventKind
  payload : Option Payload

/-- Whether an event carries a payload addressed to `myId`. -/
def RxEvent.addressedTo (e : RxEvent) (myId : String) : Bool :=
  match e.payload with
  | some p => p.toId == myId
  | none => false

/-- Process one received event. -/
def stepEvent (myId : String) (s : SessionState) (e : RxEvent) : SessionState :=
  handleBroadcast myId e.now e.kind e.payload s

/-- Process a list of received events in order. -/
def processEvents (myId : String) (evs : List RxEvent) (s : SessionState) :
    SessionState :=
  evs.foldl (stepEvent myId) s

/-- Left-pad a string with the character `0` to length two
(`String.padStart(2, "0")`). -/
def padStart2 (str : String) : String :=
  if str.length ≥ 2 then str else if str.length = 1 then "0" ++ str else "00"

/-- Render a nonnegative number of seconds as a clock string, exactly as
the body of `formatDuration` after the `Math.max(0, ...)` clamp. -/
def formatClock (total : Nat) : String :=
  let h := total / 3600
  let m := (total % 3600) / 60
  let s := total % 60
  if h > 0 then
    Nat.repr h ++ ":" ++ padStart2 (Nat.repr m) ++ ":" ++ padStart2 (Nat.repr s)
  else
    Nat.repr m ++ ":" ++ padStart2 (Nat.repr s)

/-- `formatDuration` from `VoiceCallModal.tsx`:
`total = Math.max(0, Math.floor(ms / 1000))`, then `h:mm:ss` when at least
one hour, else `m:ss`. -/
def formatDuration (ms : Int) : String :=
  formatClock (max 0 (Int.fdiv ms 1000)).toNat

/-- A concrete local identity used by the concrete scenarios below. -/
def meUser : UserIdentity :=
  { id := "me", username := "meuser", displayName := "Me", avatarUrl := none }

/-- A concrete captured stream with one audio and one video track. -/
def demoStream : MediaStream :=
  { tracks := [{ kind := .audio, enabled := true },
               { kind := .video, enabled := true }] }

/-- State of a caller that just started call `c2` to `peer1`. -/
def sOutgoing : SessionState :=
  handleStartCall
    { name := some "Alice", username := some "alice", avatarUrl := none }
    "peer1" meUser "c2" (some demoStream) 1 10 initialState

/-- A well-formed `answer` payload for call `c2`, addressed to `me`. -/
def answerPayload : Payload :=
  { callId := some "c2", fromId := "peer1", toId := "me", ts := 99,
    sdp := some { type := .answer, tag := 2 }, candidate := none,
    fromName := none, fromUsername := none, fromAvatarUrl := none }

/-- An `answer` payload addressed to `me` that carries no SDP. -/
def answerNoSdpPayload : Payload :=
  { callId := some "c2", fromId := "peer1", toId := "me", ts := 199,
    sdp := none, candidate := none,
    fromName := none, fromUsername := none, fromAvatarUrl := none }

/-- A `decline` payload addressed to `me` whose `callId` `c1` does not
match the live call `c2`. -/
def staleDeclinePayload : Payload :=
  { callId := some "c1", fromId := "someoneElse", toId := "me", ts := 11,
    sdp := none, candidate := none,
    fromName := none, fromUsername := none, fromAvatarUrl := none }

/-- State of the caller after the peer's answer arrived at time 100. -/
def sCallerActive : SessionState :=
  handleBroadcast "me" 100 .answer (some answerPayload) sOutgoing

/-- A `call` (offer) payload for a second call `c9` from `peer2`. -/
def callPayload2 : Payload :=
  { callId := some "c9", fromId := "peer2", toId := "me", ts := 299,
    sdp := some { type := .offer, tag := 9 }, candidate := none,
    fromName := some "Eve", fromUsername := some "eve", fromAvatarUrl := none }

/-- A `call` (offer) payload starting call `c1` from `peer1`. -/
def incomingCallPayload : Payload :=
  { callId := some "c1", fromId := "peer1", toId := "me", ts := 49,
    sdp := some { type := .offer, tag := 3 }, candidate := none,
    fromName := some "Alice", fromUsername := some "alice",
    fromAvatarUrl := none }

/-- An `ice` payload for call `c1`, addressed to `me`, carrying
candidate 42. -/
def icePayload : Payload :=
  { callId := some "c1", fromId := "peer1", toId := "me", ts := 55,
    sdp := none, candidate := some 42,
    fromName := none, fromUsername := none, fromAvatarUrl := none }

/-- State of a callee that just received the `call` event for `c1`. -/
def sIncoming : SessionState :=
  handleBroadcast "me" 50 .call (some incomingCallPayload) initialState

/-- State of the callee after accepting call `c1` at time 60. -/
def sCalleeActive : SessionState :=
  handleAnswerIntent meUser (some demoStream) 8 60 sIncoming

/-- The peer connection held by `sCalleeActive`, written out. -/
def pcCalleeFinal : PeerConnection :=
  { signaling := .stable,
    localDesc := some { type := .answer, tag := 8 },
    remoteDesc := some { type := .offer, tag := 3 },
    appliedCandidates := [],
    senderTracks := demoStream.tracks,
    closed := false }

/-- A payload addressed to a different recipient than `me`. -/
def foreignPayload : Payload :=
  { callId := some "c2", fromId := "peer1", toId := "notme", ts := 5,
    sdp := none, candidate := none,
    fromName := none, fromUsername := none, fromAvatarUrl := none }

/-- An `ice` payload for call `c1`, addressed to `me`, carrying
candidate 43, arriving after the callee answered. -/
def icePayloadLate : Payload :=
  { callId := some "c1", fromId := "peer1", toId := "me", ts := 70,
    sdp := none, candidate := some 43,
    fromName := none, fromUsername := none, fromAvatarUrl := none }

/-- Helper: every broadcast handler returns the state unchanged when the
payload is absent or not addressed to the local identity. -/
theorem handleBroadcast_not_addressed (myId : String) (now : Nat)
    (k : EventKind) (p? : Option Payload) (s : SessionState)
    (h : ∀ p, p? = some p → p.toId ≠ myId) :
    handleBroadcast myId now k p? s = s := by
  cases p? with
  | none => cases k <;> rfl
  | some p =>
    have hp := h p rfl
    cases k <;>
      simp [handleBroadcast, onCallEvent, onAnswerEvent, onIceEvent,
        onTerminateEvent, hp]

/-- Helper: `(max 0 a).toNat = a.toNat`. -/
theorem toNat_max_zero (a : Int) : (max 0 a).toNat = a.toNat := by
  rcases le_total 0 a with h | h
  · rw [max_eq_right h]
  · rw [max_eq_left h]
    omega

/-- Helper: `formatDuration` in terms of Euclidean division. -/
theorem formatDuration_eq (ms : Int) :
    formatDuration ms = formatClock (ms / 1000).toNat := by
  unfold formatDuration
  rw [Int.fdiv_eq_ediv _ (by decide), toNat_max_zero]

/-- Helper: the sub-hour branch of `formatClock`. -/
theorem formatClock_lt_hour (t : Nat) (h : t < 3600) :
    formatClock t =
      Nat.repr (t % 3600 / 60) ++ ":" ++ padStart2 (Nat.repr (t % 60)) := by
  unfold formatClock
  have h0 : t / 3600 = 0 := by omega
  simp [h0]

/-- Helper: the two-digit pad of a number up to 59 has length two. -/
theorem padStart2_repr_length (n : Nat) (h : n ≤ 59) :
    (padStart2 (Nat.repr n)).length = 2 := by
  interval_cases n <;> decide

/-- C5: teardown is idempotent: for every session state (including the
never-initialized `initialState`) calling `cleanupCall` `n + 1` times
yields the same observable resource state (no transport, no local or
remote tracks, cleared video references) as calling it once; as a total
function it never throws (each source step is inside `try {} catch {}`). -/
theorem c5_teardown_idempotent (s : SessionState) (n : Nat) :
    Nat.iterate cleanupCall (n + 1) s = cleanupCall s := by
  induction n generalizing s with
  | zero => rfl
  | succ k ih =>
    have h1 : Nat.iterate cleanupCall (k + 1 + 1) s =
        Nat.iterate cleanupCall (k + 1) (cleanupCall s) := rfl
    rw [h1, ih]
    rfl

/-- C8: the connectivity callback maps the transport's raw signal exactly
as connected to Good, connecting to Connecting, disconnected and failed to
Disconnected; the remaining raw states (new, closed) change nothing, so no
raw signal ever produces Fair or Poor. -/
theorem c8_connectivity_mapping (s : SessionState) :
    (onConnectionStateChange .connected s).connectionStatus = .good ∧
    (onConnectionStateChange .connecting s).connectionStatus = .connecting ∧
    (onConnectionStateChange .disconnected s).connectionStatus = .disconnected ∧
    (onConnectionStateChange .failed s).connectionStatus = .disconnected ∧
    (∀ st, (onConnectionStateChange st s).connectionStatus = ConnQuality.fair →
      s.connectionStatus = ConnQuality.fair) ∧
    (∀ st, (onConnectionStateChange st s).connectionStatus = ConnQuality.poor →
      s.connectionStatus = ConnQuality.poor) := by
  refine ⟨rfl, rfl, rfl, rfl, ?_, ?_⟩ <;>
    intro st <;> cases st <;> simp [onConnectionStateChange]

/-- C8 witness: the mapping evaluated on the initial state. -/
theorem c8_connectivity_mapping_w :
    (onConnectionStateChange .connected initialState).connectionStatus =
      ConnQuality.good :=
  (c8_connectivity_mapping initialState).1

/-- C9: toggling mute is local-only: it records the flag and flips exactly
the enabled bit of the local audio tracks (disabled when muting, enabled
when unmuting); nothing is broadcast, and the lifecycle state, transport,
start time, connection status and remote media are unchanged. -/
theorem c9_mute_local_only (m : Bool) (s : SessionState) :
    (onMuteToggle m s).sent = s.sent ∧
    (onMuteToggle m s).callState = s.callState ∧
    (onMuteToggle m s).pc = s.pc ∧
    (onMuteToggle m s).callStartedAt = s.callStartedAt ∧
    (onMuteToggle m s).connectionStatus = s.connectionStatus ∧
    (onMuteToggle m s).remoteStream = s.remoteStream ∧
    (onMuteToggle m s).callOpen = s.callOpen ∧
    (onMuteToggle m s).callMuted = m ∧
    (onMuteToggle m s).localStream =
      Option.map (fun st => MediaStream.mk (st.tracks.map fun t =>
        if t.kind = TrackKind.audio then { t with enabled := !m } else t))
        s.localStream :=
  ⟨rfl, rfl, rfl, rfl, rfl, rfl, rfl, rfl, rfl⟩

/-- C1 counterexample: a `decline` addressed to the local party whose
`callId` (`c1`) differs from the live call (`c2`) is not discarded: it
closes the call and changes the session state. -/
theorem c1_stale_callid_mutates_state_cex :
    sOutgoing.activeCallId = some "c2" ∧
    staleDeclinePayload.callId = some "c1" ∧
    staleDeclinePayload.toId = "me" ∧
    sOutgoing.callOpen = true ∧
    (handleBroadcast "me" 12 .decline (some staleDeclinePayload) sOutgoing).callOpen
      = false ∧
    handleBroadcast "me" 12 .decline (some staleDeclinePayload) sOutgoing ≠
      sOutgoing := by
  decide

/-- C1 (amended): inbound events are filtered only by recipient; for every
event other than `call` the handler ignores the payload's `callId`
entirely, so an event with a stale or foreign `callId` is processed
exactly as one with the live `callId`. -/
theorem c1_recipient_filter_only (myId : String) (now : Nat) (k : EventKind)
    (p : Payload) (cid : Option String) (s : SessionState)
    (hk : k ≠ EventKind.call) :
    handleBroadcast myId now k (some { p with callId := cid }) s =
      handleBroadcast myId now k (some p) s := by
  cases k with
  | call => exact absurd rfl hk
  | answer => rfl
  | ice => rfl
  | decline => rfl
  | hangup => rfl
  | cancel => rfl

/-- C1 witness: a stale `decline` acts exactly as a matching one. -/
theorem c1_recipient_filter_only_w :
    handleBroadcast "me" 12 .decline
        (some { staleDeclinePayload with callId := some "zzz" }) sOutgoing =
      handleBroadcast "me" 12 .decline (some staleDeclinePayload) sOutgoing :=
  c1_recipient_filter_only "me" 12 .decline staleDeclinePayload (some "zzz")
    sOutgoing (by decide)

/-- C7: noninterference of foreign-addressed messages: an event whose
payload is absent or not addressed to the local party leaves the state
unchanged, and a run with all such events removed ends in the same state
as the original run. -/
theorem c7_foreign_noninterference (myId : String) :
    (∀ (e : RxEvent) (s : SessionState), e.addressedTo myId = false →
      stepEvent myId s e = s) ∧
    (∀ (evs : List RxEvent) (s : SessionState),
      processEvents myId (evs.filter fun e => e.addressedTo myId) s =
        processEvents myId evs s) := by
  have hstep : ∀ (e : RxEvent) (s : SessionState), e.addressedTo myId = false →
      stepEvent myId s e = s := by
    intro e s h
    refine handleBroadcast_not_addressed myId e.now e.kind e.payload s ?_
    intro p hp
    rw [RxEvent.addressedTo, hp] at h
    exact ne_of_beq_false h
  refine ⟨hstep, ?_⟩
  intro evs
  induction evs with
  | nil => intro s; rfl
  | cons e t ih =>
    intro s
    cases hae : e.addressedTo myId with
    | false =>
      simp only [List.filter, hae, processEvents, List.foldl]
      rw [hstep e s hae] at *
      exact ih s
    | true =>
      simp only [List.filter, hae, processEvents, List.foldl]
      exact ih (stepEvent myId s e)

/-- C7 witness: a concrete foreign-addressed `decline` is a no-op on a
concrete active session. -/
theorem c7_foreign_noninterference_w :
    stepEvent "me" sCallerActive
        { now := 5, kind := .decline, payload := some foreignPayload } =
      sCallerActive :=
  (c7_foreign_noninterference "me").1
    { now := 5, kind := .decline, payload := some foreignPayload }
    sCallerActive (by decide)

/-- C2 counterexample: an `ice` candidate arriving at the callee before
answering (no transport yet) is silently dropped — the state is unchanged
and after the callee answers, no candidate has been applied to the
transport.  No buffer exists. -/
theorem c2_early_candidate_dropped_cex :
    sIncoming.pc = none ∧
    icePayload.toId = "me" ∧
    icePayload.candidate = some 42 ∧
    handleBroadcast "me" 55 .ice (some icePayload) sIncoming = sIncoming ∧
    ((handleAnswerIntent meUser (some demoStream) 8 60
        (handleBroadcast "me" 55 .ice (some icePayload) sIncoming)).pc.map
      (·.appliedCandidates)) = some [] := by
  decide

/-- C2 (amended): there is no pending-candidate buffer: an `ice` event is
dropped when no transport exists or the remote description is not yet
applied, and is applied to the transport immediately (never buffered) when
the remote description is applied. -/
theorem c2_no_candidate_buffer (myId : String) (now : Nat) (p : Payload)
    (s : SessionState) :
    (s.pc = none → handleBroadcast myId now .ice (some p) s = s) ∧
    (∀ pc, s.pc = some pc → pc.remoteDesc = none →
      handleBroadcast myId now .ice (some p) s = s) ∧
    (∀ pc c d, s.pc = some pc → pc.remoteDesc = some d → pc.closed = false →
      p.candidate = some c → p.toId = myId →
      handleBroadcast myId now .ice (some p) s =
        { s with
          pc := some { pc with
            appliedCandidates := pc.appliedCandidates ++ [c] } }) := by
  refine ⟨?_, ?_, ?_⟩
  · intro h
    by_cases hto : p.toId = myId
    · cases hc : p.candidate <;>
        simp [handleBroadcast, onIceEvent, h, hto, hc]
    · simp [handleBroadcast, onIceEvent, hto]
  · intro pc h hrd
    by_cases hto : p.toId = myId
    · cases hc : p.candidate with
      | none => simp [handleBroadcast, onIceEvent, h, hto, hc]
      | some c =>
        cases hcl : pc.closed <;>
          simp [handleBroadcast, onIceEvent, PeerConnection.addIceCandidate,
            h, hto, hc, hcl, hrd]
    · simp [handleBroadcast, onIceEvent, hto]
  · intro pc c d h hrd hcl hc hto
    simp [handleBroadcast, onIceEvent, PeerConnection.addIceCandidate,
      h, hto, hc, hcl, hrd]

/-- C2 witness: at the callee after answering, a candidate is applied
immediately. -/
theorem c2_no_candidate_buffer_w :
    handleBroadcast "me" 70 .ice (some icePayloadLate) sCalleeActive =
      { sCalleeActive with
        pc := some { pcCalleeFinal with
          appliedCandidates := pcCalleeFinal.appliedCandidates ++ [43] } } :=
  (c2_no_candidate_buffer "me" 70 icePayloadLate sCalleeActive).2.2
    pcCalleeFinal 43 { type := .offer, tag := 3 }
    (by decide) (by decide) (by decide) (by decide) (by decide)

/-- C3 counterexample: an inbound `call` arriving while a call is Active
is not rejected: it silently replaces the live session's callId, peer id
and lifecycle state. -/
theorem c3_busy_overwrite_cex :
    sCallerActive.callState = .active ∧
    sCallerActive.activeCallId = some "c2" ∧
    sCallerActive.callPeerId = some "peer1" ∧
    (handleBroadcast "me" 300 .call (some callPayload2) sCallerActive).callState
      = .incoming ∧
    (handleBroadcast "me" 300 .call (some callPayload2) sCallerActive).activeCallId
      = some "c9" ∧
    (handleBroadcast "me" 300 .call (some callPayload2) sCallerActive).callPeerId
      = some "peer2" := by
  decide

/-- C3 (amended): neither the inbound `call` handler nor the start-call
intent inspects the current lifecycle state (no busy rejection): both
behave identically whatever the current state is, the inbound handler
overwrites callId, peer and lifecycle while keeping the existing transport
and media objects. -/
theorem c3_no_busy_check (myId : String) (now : Nat) (p : Payload)
    (s : SessionState) (h : p.toId = myId) :
    (∀ c, handleBroadcast myId now .call (some p) { s with callState := c } =
      handleBroadcast myId now .call (some p) s) ∧
    ((handleBroadcast myId now .call (some p) s).activeCallId = jsOrNull p.callId ∧
     (handleBroadcast myId now .call (some p) s).callPeerId = some p.fromId ∧
     (handleBroadcast myId now .call (some p) s).callState = .incoming ∧
     (handleBroadcast myId now .call (some p) s).pc = s.pc ∧
     (handleBroadcast myId now .call (some p) s).localStream = s.localStream) ∧
    (∀ contact contactId me ncid media tag c,
      handleStartCall contact contactId me ncid media tag now
          { s with callState := c } =
        handleStartCall contact contactId me ncid media tag now s) := by
  have hne : ¬(p.toId ≠ myId) := fun hx => hx h
  refine ⟨?_, ?_, ?_⟩
  · intro c
    simp only [handleBroadcast, onCallEvent]
    rw [if_neg hne, if_neg hne]
  · simp only [handleBroadcast, onCallEvent]
    rw [if_neg hne]
    exact ⟨rfl, rfl, rfl, rfl, rfl⟩
  · intro contact contactId me ncid media tag c
    rfl

/-- C3 witness: the overwrite evaluated on the concrete active caller. -/
theorem c3_no_busy_check_w :
    (handleBroadcast "me" 300 .call (some callPayload2) sCallerActive).callState
      = UICallState.incoming :=
  (c3_no_busy_check "me" 300 callPayload2 sCallerActive rfl).2.1.2.2.1

/-- C4 counterexample: an inbound `answer` while the session is already
Active is not always a no-op: an `answer` event carrying no SDP still
resets `startedAt` to the current time (the handler never checks the
current lifecycle state). -/
theorem c4_answer_without_sdp_resets_cex :
    sCallerActive.callState = .active ∧
    sCallerActive.callStartedAt = some 100 ∧
    answerNoSdpPayload.toId = "me" ∧
    (handleBroadcast "me" 200 .answer (some answerNoSdpPayload)
        sCallerActive).callStartedAt = some 200 := by
  decide

/-- C4 (amended): a duplicate `answer` carrying an answer SDP, received
while the session is Active with completed negotiation (transport in the
stable signaling state), is a no-op — not because the handler checks
state, but because the transport rejects a second remote answer and the
surrounding `try` aborts before any state setter runs. -/
theorem c4_duplicate_answer_noop (myId : String) (now : Nat) (p : Payload)
    (s : SessionState)
    (hpc : s.pc.map PeerConnection.signaling = some SignalingState.stable)
    (hsdp : p.sdp.map SDPDesc.type = some SDPType.answer) :
    handleBroadcast myId now .answer (some p) s = s := by
  cases hp : p.sdp with
  | none => rw [hp] at hsdp; simp at hsdp
  | some sdp =>
    cases hc : s.pc with
    | none => rw [hc] at hpc; simp at hpc
    | some pc =>
      rw [hp] at hsdp
      rw [hc] at hpc
      simp at hsdp hpc
      have hset : pc.setRemoteDescription sdp = none := by
        unfold PeerConnection.setRemoteDescription
        cases hcl : pc.closed <;> simp [hcl, hsdp, hpc]
      by_cases hto : p.toId = myId
      · simp [handleBroadcast, onAnswerEvent, hp, hc, hsdp, hset, hto]
      · simp [handleBroadcast, onAnswerEvent, hto]

/-- C4 witness: the duplicate of the concrete answer is a no-op on the
concrete active caller. -/
theorem c4_duplicate_answer_noop_w :
    handleBroadcast "me" 200 .answer (some answerPayload) sCallerActive =
      sCallerActive :=
  c4_duplicate_answer_noop "me" 200 answerPayload sCallerActive
    (by decide) (by decide)

/-- C6 counterexample: a media-acquisition failure on the callee answer
path is swallowed (`catch { /* noop */ }`): the session is NOT torn down —
the freshly created transport is retained, the modal stays open and the
lifecycle state stays Incoming. -/
theorem c6_callee_failure_no_teardown_cex :
    sIncoming.callOpen = true ∧
    sIncoming.callState = .incoming ∧
    sIncoming.pc = none ∧
    (handleAnswerIntent meUser none 8 61 sIncoming).pc =
      some PeerConnection.mkNew ∧
    (handleAnswerIntent meUser none 8 61 sIncoming).callOpen = true ∧
    (handleAnswerIntent meUser none 8 61 sIncoming).callState = .incoming ∧
    (handleAnswerIntent meUser none 8 61 sIncoming).localStream = none := by
  decide

/-- C6 (amended): only the caller path tears down on a media failure
(resources cleared, modal closed, identifiers nulled); the callee answer
path swallows the failure, leaving the session open in its prior lifecycle
state with a created transport retained. -/
theorem c6_failure_paths (contact : ContactCard) (contactId : String)
    (me : UserIdentity) (newCallId : String) (offerTag answerTag now : Nat)
    (s : SessionState) (hls : s.localStream = none) :
    ((handleStartCall contact contactId me newCallId none offerTag now s).pc
        = none ∧
     (handleStartCall contact contactId me newCallId none offerTag now s).localStream
        = none ∧
     (handleStartCall contact contactId me newCallId none offerTag now s).remoteStream
        = none ∧
     (handleStartCall contact contactId me newCallId none offerTag now s).callOpen
        = false ∧
     (handleStartCall contact contactId me newCallId none offerTag now s).activeCallId
        = none ∧
     (handleStartCall contact contactId me newCallId none offerTag now s).callPeerId
        = none) ∧
    ((handleAnswerIntent me none answerTag now s).callOpen = s.callOpen ∧
     (handleAnswerIntent me none answerTag now s).callState = s.callState ∧
     (handleAnswerIntent me none answerTag now s).callStartedAt = s.callStartedAt ∧
     (handleAnswerIntent me none answerTag now s).pc =
       some (s.pc.getD PeerConnection.mkNew) ∧
     (handleAnswerIntent me none answerTag now s).sent = s.sent) := by
  constructor
  · simp [handleStartCall, startCallFlow, ensureLocalMedia, cleanupCall, hls]
  · cases hc : s.pc with
    | none =>
      simp [handleAnswerIntent, setupPeerConnection, ensureLocalMedia, hls, hc]
    | some pc =>
      simp [handleAnswerIntent, setupPeerConnection, ensureLocalMedia, hls, hc]

/-- C6 witness: the callee-path behaviour on the concrete incoming
session. -/
theorem c6_failure_paths_w :
    (handleAnswerIntent meUser none 8 61 sIncoming).callOpen =
      sIncoming.callOpen :=
  (c6_failure_paths { name := none, username := none, avatarUrl := none }
    "peer1" meUser "cX" 1 8 61 sIncoming (by decide)).2.1

/-- C10: `formatDuration` always returns a non-negative clock string: any
input at most zero yields `0:00`; under one hour the result is `m:ss` with
the seconds zero-padded to two digits; at one hour or more it is `h:mm:ss`
with minutes and seconds zero-padded to two digits. -/
theorem c10_formatDuration_clock (ms : Int) :
    (ms ≤ 0 → formatDuration ms = "0:00") ∧
    (0 < ms → ms < 3600000 →
      ∃ m s, m ≤ 59 ∧ s ≤ 59 ∧ (padStart2 (Nat.repr s)).length = 2 ∧
        formatDuration ms = Nat.repr m ++ ":" ++ padStart2 (Nat.repr s)) ∧
    (3600000 ≤ ms →
      ∃ h m s, 1 ≤ h ∧ m ≤ 59 ∧ s ≤ 59 ∧
        (padStart2 (Nat.repr m)).length = 2 ∧
        (padStart2 (Nat.repr s)).length = 2 ∧
        formatDuration ms =
          Nat.repr h ++ ":" ++ padStart2 (Nat.repr m) ++ ":" ++
            padStart2 (Nat.repr s)) := by
  refine ⟨?_, ?_, ?_⟩
  · intro h
    rw [formatDuration_eq]
    have h0 : (ms / 1000).toNat = 0 := by omega
    rw [h0]
    decide
  · intro h1 h2
    rw [formatDuration_eq]
    have hlt : (ms / 1000).toNat < 3600 := by omega
    refine ⟨(ms / 1000).toNat % 3600 / 60, (ms / 1000).toNat % 60,
      by omega, by omega, padStart2_repr_length _ (by omega), ?_⟩
    exact formatClock_lt_hour _ hlt
  · intro h1
    rw [formatDuration_eq]
    have hge : 3600 ≤ (ms / 1000).toNat := by omega
    have hpos : 0 < (ms / 1000).toNat / 3600 := by omega
    refine ⟨(ms / 1000).toNat / 3600, (ms / 1000).toNat % 3600 / 60,
      (ms / 1000).toNat % 60, by omega, by omega, by omega,
      padStart2_repr_length _ (by omega), padStart2_repr_length _ (by omega),
      ?_⟩
    unfold formatClock
    simp [hpos]

/-- C10 witness: a negative duration renders as `0:00`. -/
theorem c10_formatDuration_clock_w : formatDuration (-5) = "0:00" :=
  (c10_formatDuration_clock (-5)).1 (by decide)
